import Mathlib

/-
Verification of the CacheTracker / web-cache component
(src/0x02-redis_basic/web.py) against its specification.

The embedding is a direct transcription of `WebCacheTracker.count_url_access`
(the returned `wrapper`) and `WebCacheTracker.get_url_count`.

Modelling notes, matching the Python source line by line:
 * The Redis store is a pair of maps: `cache` maps keys to a value together
   with an absolute expiry instant (written by `setex` as now + ttl; `get`
   returns the value only while the current instant is strictly below the
   expiry instant), and `count` maps keys to the integer counter.
 * A single `TrackedFetch` invocation performs its store operations in a
   fixed order (get, then either incr, or setex followed by incr), so the
   store-failure oracle is three booleans, one per operation kind, saying
   whether that operation raises `redis.RedisError` during this invocation.
 * The fetcher (`method` in the source) is modelled as a function from the
   call index within the invocation (0 for the first call, 1 for a second
   call) to `Except FetchErr String`, so that a repeated invocation of the
   fetcher is observable and may return a different value.
 * The whole body of `wrapper` sits in one `try` whose
   `except redis.RedisError` handler prints and does `return method(url)`;
   the transcription therefore routes EVERY store failure (get on line 45,
   incr on line 48, setex on line 55, incr on line 62) to a fallback that
   invokes the fetcher (again, if it already ran) and returns that result.
   An exception raised by that fallback fetch propagates unwrapped
   (`fetchRaw`), while a fetcher exception raised inside the `try` block is
   wrapped by `except Exception` into RuntimeError (`fetchProcessing`).
 * `if cached_data:` on line 46 is a truthiness test on `bytes | None`:
   it is false both for an absent entry and for the empty string.
 * The result record also counts, per invocation, how many times each store
   operation was attempted, how many times the fetcher was invoked, and how
   many redis-error log lines (`print`) were emitted.
-/

namespace WebCache

/-- Error raised by the user-supplied fetcher (`requests` failures etc.). -/
inductive FetchErr where
  | fail (msg : String)
  deriving DecidableEq, Repr

/-- Errors surfaced by a `TrackedFetch` invocation: `ValueError` for an empty
URL, `RuntimeError` wrapping a fetcher failure from inside the `try` block,
and a raw (unwrapped) fetcher failure from the redis-error fallback path. -/
inductive TrackErr where
  | invalidArgument
  | fetchProcessing (url : String) (cause : FetchErr)
  | fetchRaw (cause : FetchErr)
  deriving DecidableEq, Repr

deriving instance DecidableEq for Except

/-- The external key-value store: cached pages with absolute expiry instants,
and per-key access counters. -/
structure Store where
  cache : String → Option (String × Nat)
  count : String → Option Nat

/-- Which store operations raise `redis.RedisError` during one invocation. -/
structure StoreBehavior where
  getFails : Bool
  setexFails : Bool
  incrFails : Bool
  deriving DecidableEq, Repr

/-- A store where every operation succeeds. -/
def healthy : StoreBehavior := ⟨false, false, false⟩

/-- Redis GET at instant `now`: the value is returned while `now` is strictly
below the expiry instant recorded by `setex`. -/
def storeGet (st : Store) (now : Nat) (k : String) : Option String :=
  match st.cache k with
  | some (v, exp) => if now < exp then some v else none
  | none => none

/-- Redis SETEX at instant `now` with ttl seconds: records the value with
expiry instant `now + ttl`. -/
def storeSetex (st : Store) (k v : String) (now ttl : Nat) : Store :=
  { st with cache := fun k2 => if k2 = k then some (v, now + ttl) else st.cache k2 }

/-- Redis INCR: an absent key is initialised to 0 before incrementing. -/
def storeIncr (st : Store) (k : String) : Store :=
  { st with count := fun k2 =>
      if k2 = k then some ((st.count k).getD 0 + 1) else st.count k2 }

/-- Python truthiness of `bytes | None`: `None` and the empty byte string are
falsy, any other byte string is truthy (line 46, `if cached_data:`). -/
def truthy : Option String → Bool
  | some v => v ≠ ""
  | none => false

/-- Everything observable about one `TrackedFetch` invocation: the returned
value or raised error, the store afterwards, how many times the fetcher was
invoked, how many times each store operation was attempted, and how many
redis-error log lines were printed. -/
structure FetchResult where
  outcome : Except TrackErr String
  store : Store
  fetchCalls : Nat
  getCalls : Nat
  setexCalls : Nat
  incrCalls : Nat
  logged : Nat

/-- Transcription of `wrapper` inside `WebCacheTracker.count_url_access`
(src/0x02-redis_basic/web.py lines 36-73). `ce` is `self.cache_expiry`,
`beh` says which store operations fail this invocation, `fetch n` is the
result of the (n+1)-th call of the wrapped `method`, `now` is the current
instant. -/
def wrapper (ce : Nat) (beh : StoreBehavior) (fetch : Nat → Except FetchErr String)
    (st : Store) (now : Nat) (url : String) : FetchResult :=
  if url = "" then
    ⟨.error .invalidArgument, st, 0, 0, 0, 0, 0⟩
  else
    if beh.getFails then
      match fetch 0 with
      | .ok v => ⟨.ok v, st, 1, 1, 0, 0, 1⟩
      | .error e => ⟨.error (.fetchRaw e), st, 1, 1, 0, 0, 1⟩
    else if truthy (storeGet st now ("cached:" ++ url)) then
      if beh.incrFails then
        match fetch 0 with
        | .ok v => ⟨.ok v, st, 1, 1, 0, 1, 1⟩
        | .error e => ⟨.error (.fetchRaw e), st, 1, 1, 0, 1, 1⟩
      else
        ⟨.ok ((storeGet st now ("cached:" ++ url)).getD ""),
          storeIncr st ("count:" ++ url), 0, 1, 0, 1, 0⟩
    else
      match fetch 0 with
      | .error e => ⟨.error (.fetchProcessing url e), st, 1, 1, 0, 0, 0⟩
      | .ok html =>
        if beh.setexFails then
          match fetch 1 with
          | .ok v => ⟨.ok v, st, 2, 1, 1, 0, 1⟩
          | .error e => ⟨.error (.fetchRaw e), st, 2, 1, 1, 0, 1⟩
        else
          if beh.incrFails then
            match fetch 1 with
            | .ok v => ⟨.ok v, storeSetex st ("cached:" ++ url) html now ce,
                2, 1, 1, 1, 1⟩
            | .error e => ⟨.error (.fetchRaw e),
                storeSetex st ("cached:" ++ url) html now ce, 2, 1, 1, 1, 1⟩
          else
            ⟨.ok html,
              storeIncr (storeSetex st ("cached:" ++ url) html now ce)
                ("count:" ++ url), 1, 1, 1, 1, 0⟩

/-- Transcription of `WebCacheTracker.get_url_count` (lines 86-91): `none`
models the Python `None` returned when the store raises `redis.RedisError`;
otherwise `int(count) if count else 0`. -/
def get_url_count (getFails : Bool) (st : Store) (url : String) : Option Nat :=
  if getFails then none
  else some ((st.count ("count:" ++ url)).getD 0)

/-- A sequence of `TrackedFetch` invocations against a healthy store, each
given by its instant and its fetcher; returns the final store and the list
of per-invocation outcomes. -/
def runList (ce : Nat) (url : String) :
    List (Nat × (Nat → Except FetchErr String)) → Store →
      Store × List (Except TrackErr String)
  | [], st => (st, [])
  | (now, f) :: rest, st =>
    let r := wrapper ce healthy f st now url
    let p := runList ce url rest r.store
    (p.1, r.outcome :: p.2)

/-- The empty store: no cached pages, no counters. -/
def emptyStore : Store := ⟨fun _ => none, fun _ => none⟩

/-- A fetcher that answers every call with the same value. -/
def okFetch (v : String) : Nat → Except FetchErr String := fun _ => .ok v

/-- A fetcher that answers the first call with `a` and later calls with `b`,
making a repeated invocation observable. -/
def twoFetch (a b : String) : Nat → Except FetchErr String :=
  fun n => if n = 0 then .ok a else .ok b

/-- A fetcher that fails every call with the same error. -/
def errFetch (e : FetchErr) : Nat → Except FetchErr String := fun _ => .error e

/-- A store holding one unexpired cached page and no counters. -/
def cachedStore (k v : String) (exp : Nat) : Store :=
  ⟨fun k2 => if k2 = k then some (v, exp) else none, fun _ => none⟩

/-- C8: for the empty key, TrackedFetch always fails with InvalidArgument
(ValueError), performs zero store operations and zero fetcher calls, and
leaves the store unchanged. -/
theorem C8_empty_key_rejected (ce : Nat) (beh : StoreBehavior)
    (fetch : Nat → Except FetchErr String) (st : Store) (now : Nat) :
    wrapper ce beh fetch st now "" =
      ⟨.error .invalidArgument, st, 0, 0, 0, 0, 0⟩ := by
  simp [wrapper]

/-- C4: when the initial store Get fails with a store error, TrackedFetch
logs the failure, calls the fetcher exactly once and returns its result
unmodified (a fetcher failure propagates unwrapped), the store is unchanged
(no setex, no incr attempted), and GetAccessCount is unchanged. -/
theorem C4_get_failure_fallback (ce : Nat) (url : String) (hurl : url ≠ "")
    (sF iF : Bool) (fetch : Nat → Except FetchErr String) (st : Store) (now : Nat) :
    let r := wrapper ce ⟨true, sF, iF⟩ fetch st now url
    r.store = st ∧ r.fetchCalls = 1 ∧ r.setexCalls = 0 ∧ r.incrCalls = 0 ∧
    r.logged = 1 ∧
    (∀ v, fetch 0 = .ok v → r.outcome = .ok v) ∧
    (∀ e, fetch 0 = .error e → r.outcome = .error (.fetchRaw e)) ∧
    get_url_count false r.store url = get_url_count false st url := by
  cases h : fetch 0 <;> simp [wrapper, hurl, h]

/-- Witness for C4 at a concrete input: key "u", fetcher returning "A",
empty store, Get failing. -/
theorem C4_get_failure_fallback_witness :
    (let r := wrapper 10 ⟨true, false, false⟩ (okFetch "A") emptyStore 0 "u"
     r.store = emptyStore ∧ r.fetchCalls = 1 ∧ r.setexCalls = 0 ∧
     r.incrCalls = 0 ∧ r.logged = 1 ∧
     (∀ v, okFetch "A" 0 = .ok v → r.outcome = .ok v) ∧
     (∀ e, okFetch "A" 0 = .error e → r.outcome = .error (.fetchRaw e)) ∧
     get_url_count false r.store "u" = get_url_count false emptyStore "u") :=
  C4_get_failure_fallback 10 "u" (by decide) false false (okFetch "A") emptyStore 0

/-- C9: GetAccessCount returns the current counter value for the key,
returns 0 when the key has never been counted, and on store failure returns
None, which is distinct from every legitimate count. -/
theorem C9_get_url_count_spec (url : String) (st : Store) :
    (∀ n, st.count ("count:" ++ url) = some n → get_url_count false st url = some n) ∧
    (st.count ("count:" ++ url) = none → get_url_count false st url = some 0) ∧
    get_url_count true st url = none ∧
    (∀ n, get_url_count true st url ≠ some n) := by
  refine ⟨?_, ?_, rfl, ?_⟩ <;> intros <;> simp_all [get_url_count]

/-- Witness for C9 at concrete inputs: a store whose counter for "u" is 3,
and the empty store with the store unreachable. -/
theorem C9_get_url_count_spec_witness :
    get_url_count false
      ⟨fun _ => none, fun k => if k = "count:u" then some 3 else none⟩ "u" = some 3 ∧
    get_url_count true emptyStore "u" = none :=
  ⟨(C9_get_url_count_spec "u" _).1 3 (by decide),
   (C9_get_url_count_spec "u" emptyStore).2.2.1⟩

/-- C7: on a genuine cache miss with a healthy store, a fetcher failure is
re-raised wrapped as the fetch-processing error, and the store is unchanged:
no cache entry is written and the counter is not incremented. -/
theorem C7_fetch_failure_on_miss (ce : Nat) (url : String) (hurl : url ≠ "")
    (fetch : Nat → Except FetchErr String) (st : Store) (now : Nat) (e : FetchErr)
    (hmiss : truthy (storeGet st now ("cached:" ++ url)) = false)
    (hf : fetch 0 = .error e) :
    let r := wrapper ce healthy fetch st now url
    r.outcome = .error (.fetchProcessing url e) ∧ r.store = st ∧
    r.setexCalls = 0 ∧ r.incrCalls = 0 ∧ r.fetchCalls = 1 := by
  simp [wrapper, healthy, hurl, hmiss, hf]

/-- Witness for C7 at a concrete input: key "u", empty store, fetcher
failing with a concrete error. -/
theorem C7_fetch_failure_on_miss_witness :
    (let r := wrapper 10 healthy (errFetch (.fail "boom")) emptyStore 0 "u"
     r.outcome = .error (.fetchProcessing "u" (.fail "boom")) ∧ r.store = emptyStore ∧
     r.setexCalls = 0 ∧ r.incrCalls = 0 ∧ r.fetchCalls = 1) :=
  C7_fetch_failure_on_miss 10 "u" (by decide) (errFetch (.fail "boom"))
    emptyStore 0 (.fail "boom") (by decide) rfl

/-- C10: a stored cache entry holding the empty string is treated as a cache
miss even while unexpired (the presence test is a truthiness test): the
fetcher is invoked and, when it succeeds, the cache entry is rewritten with
the fresh value rather than the cached empty value being returned. -/
theorem C10_empty_cached_value_is_miss (ce : Nat) (url : String) (hurl : url ≠ "")
    (fetch : Nat → Except FetchErr String) (st : Store) (now : Nat)
    (hempty : storeGet st now ("cached:" ++ url) = some "") :
    let r := wrapper ce healthy fetch st now url
    r.fetchCalls = 1 ∧
    (∀ v, fetch 0 = .ok v →
      r.outcome = .ok v ∧
      r.store.cache ("cached:" ++ url) = some (v, now + ce) ∧
      r.setexCalls = 1) := by
  cases h : fetch 0 <;>
    simp [wrapper, healthy, hurl, hempty, h, truthy, storeIncr, storeSetex]

/-- Witness for C10 at a concrete input: the empty string cached unexpired
for key "u", fetcher returning "B". -/
theorem C10_empty_cached_value_is_miss_witness :
    (let r := wrapper 10 healthy (okFetch "B") (cachedStore "cached:u" "" 100) 0 "u"
     r.fetchCalls = 1 ∧
     (∀ v, okFetch "B" 0 = .ok v →
       r.outcome = .ok v ∧
       r.store.cache ("cached:" ++ "u") = some (v, 0 + 10) ∧
       r.setexCalls = 1)) :=
  C10_empty_cached_value_is_miss 10 "u" (by decide) (okFetch "B")
    (cachedStore "cached:u" "" 100) 0 (by decide)

/-- C5 as frozen is refuted by the empty-string value: a cache-miss
invocation for key "u" fetches and caches "", both writes succeed, yet an
immediate second invocation (well within the 10-second expiry) invokes the
fetcher again instead of returning the cached value. -/
theorem C5_counterexample :
    (let r1 := wrapper 10 healthy (okFetch "") emptyStore 0 "u"
     let r2 := wrapper 10 healthy (okFetch "B") r1.store 1 "u"
     truthy (storeGet emptyStore 0 ("cached:" ++ "u")) = false ∧
     r1.outcome = .ok "" ∧ r1.setexCalls = 1 ∧ r1.incrCalls = 1 ∧ r1.logged = 0 ∧
     (1 : Nat) < 0 + 10 ∧
     ¬ (r2.outcome = .ok "" ∧ r2.fetchCalls = 0)) := by
  dsimp only
  decide

/-- C5 amended: for every NON-EMPTY value v, after a cache-miss invocation
returns v with both store writes succeeding, a subsequent invocation within
cache_expiry seconds returns v from the cache without invoking the fetcher. -/
theorem C5_cache_hit_after_miss (ce : Nat) (url v : String) (hurl : url ≠ "")
    (hv : v ≠ "") (fetch1 fetch2 : Nat → Except FetchErr String)
    (st : Store) (now1 now2 : Nat)
    (hmiss : truthy (storeGet st now1 ("cached:" ++ url)) = false)
    (hf : fetch1 0 = .ok v) (htime : now2 < now1 + ce) :
    let r1 := wrapper ce healthy fetch1 st now1 url
    let r2 := wrapper ce healthy fetch2 r1.store now2 url
    r1.outcome = .ok v ∧ r2.outcome = .ok v ∧ r2.fetchCalls = 0 := by
  have h1 : wrapper ce healthy fetch1 st now1 url =
      ⟨.ok v, storeIncr (storeSetex st ("cached:" ++ url) v now1 ce) ("count:" ++ url),
        1, 1, 1, 1, 0⟩ := by
    simp [wrapper, healthy, hurl, hmiss, hf]
  have h2 : storeGet (storeIncr (storeSetex st ("cached:" ++ url) v now1 ce)
      ("count:" ++ url)) now2 ("cached:" ++ url) = some v := by
    simp [storeGet, storeIncr, storeSetex, htime]
  have h3 : truthy (some v) = true := by simp [truthy, hv]
  dsimp only
  rw [h1]
  simp [wrapper, hurl, healthy, h2, h3]

/-- Witness for the amended C5 at a concrete input: key "u", value "A"
fetched at instant 0, second lookup at instant 1 with expiry 10. -/
theorem C5_cache_hit_after_miss_witness :
    (let r1 := wrapper 10 healthy (okFetch "A") emptyStore 0 "u"
     let r2 := wrapper 10 healthy (okFetch "B") r1.store 1 "u"
     r1.outcome = .ok "A" ∧ r2.outcome = .ok "A" ∧ r2.fetchCalls = 0) :=
  C5_cache_hit_after_miss 10 "u" "A" (by decide) (by decide) (okFetch "A")
    (okFetch "B") emptyStore 0 1 (by decide) rfl (by decide)

/-- C1 as frozen is refuted: key "u" has "A" cached and unexpired (a cache
hit) and the counter increment fails, yet the invocation returns the
fetcher's value "B" after one fetcher call, not the cached "A" with no
fetcher call. -/
theorem C1_counterexample :
    (let st := cachedStore "cached:u" "A" 5
     let r := wrapper 10 ⟨false, false, true⟩ (okFetch "B") st 0 "u"
     truthy (storeGet st 0 ("cached:" ++ "u")) = true ∧
     r.logged = 1 ∧ r.outcome = .ok "B" ∧ r.fetchCalls = 1 ∧
     ¬ (r.outcome = .ok "A" ∧ r.fetchCalls = 0)) := by
  dsimp only
  decide

/-- C1 amended: on a cache hit whose counter increment fails with a store
error, the failure is logged and the invocation falls into the store-error
handler: the fetcher is invoked once and ITS result is returned (a fetcher
failure propagating unwrapped), instead of the already-read cached value;
the store is left unchanged. -/
theorem C1_hit_incr_failure_falls_back (ce : Nat) (url : String) (hurl : url ≠ "")
    (sF : Bool) (fetch : Nat → Except FetchErr String) (st : Store) (now : Nat)
    (hhit : truthy (storeGet st now ("cached:" ++ url)) = true) :
    let r := wrapper ce ⟨false, sF, true⟩ fetch st now url
    r.logged = 1 ∧ r.fetchCalls = 1 ∧ r.incrCalls = 1 ∧ r.store = st ∧
    (∀ v, fetch 0 = .ok v → r.outcome = .ok v) ∧
    (∀ e, fetch 0 = .error e → r.outcome = .error (.fetchRaw e)) := by
  cases h : fetch 0 <;> simp [wrapper, hurl, hhit, h]

/-- Witness for the amended C1 at a concrete input: "A" cached unexpired for
key "u", increment failing, fetcher returning "B". -/
theorem C1_hit_incr_failure_falls_back_witness :
    (let r := wrapper 10 ⟨false, false, true⟩ (okFetch "B")
        (cachedStore "cached:u" "A" 5) 0 "u"
     r.logged = 1 ∧ r.fetchCalls = 1 ∧ r.incrCalls = 1 ∧
     r.store = cachedStore "cached:u" "A" 5 ∧
     (∀ v, okFetch "B" 0 = .ok v → r.outcome = .ok v) ∧
     (∀ e, okFetch "B" 0 = .error e → r.outcome = .error (.fetchRaw e))) :=
  C1_hit_incr_failure_falls_back 10 "u" (by decide) false (okFetch "B")
    (cachedStore "cached:u" "A" 5) 0 (by decide)

/-- C2 as frozen is refuted: on a cache miss for key "w" the fetcher first
returns "A", the cache write fails, and the invocation returns "B" — the
result of a SECOND fetcher call — rather than the already-fetched "A" with a
single fetcher call. -/
theorem C2_counterexample :
    (let r := wrapper 10 ⟨false, true, false⟩ (twoFetch "A" "B") emptyStore 0 "w"
     truthy (storeGet emptyStore 0 ("cached:" ++ "w")) = false ∧
     twoFetch "A" "B" 0 = .ok "A" ∧
     r.logged = 1 ∧ r.outcome = .ok "B" ∧ r.fetchCalls = 2 ∧
     ¬ (r.outcome = .ok "A" ∧ r.fetchCalls = 1)) := by
  dsimp only
  decide

/-- C2 amended: on the cache-miss path, when the cache write or the counter
increment fails with a store error after the fetcher succeeded, the failure
is logged but the invocation falls into the store-error handler: the fetcher
is invoked a SECOND time and the second call's result is returned (the first
fetched value is discarded); the counter is never incremented. -/
theorem C2_miss_write_failure_refetches (ce : Nat) (url v : String)
    (hurl : url ≠ "") (sF iF : Bool) (hfail : sF = true ∨ iF = true)
    (fetch : Nat → Except FetchErr String) (st : Store) (now : Nat)
    (hmiss : truthy (storeGet st now ("cached:" ++ url)) = false)
    (hf : fetch 0 = .ok v) :
    let r := wrapper ce ⟨false, sF, iF⟩ fetch st now url
    r.logged = 1 ∧ r.fetchCalls = 2 ∧
    r.store.count ("count:" ++ url) = st.count ("count:" ++ url) ∧
    (∀ w, fetch 1 = .ok w → r.outcome = .ok w) ∧
    (∀ e, fetch 1 = .error e → r.outcome = .error (.fetchRaw e)) := by
  have hcases : sF = true ∨ (sF = false ∧ iF = true) := by
    rcases hfail with h | h
    · exact Or.inl h
    · cases sF
      · exact Or.inr ⟨rfl, h⟩
      · exact Or.inl rfl
  rcases hcases with rfl | ⟨rfl, rfl⟩ <;> cases h1 : fetch 1 <;>
    simp [wrapper, hurl, hmiss, hf, h1, storeSetex]

/-- Witness for the amended C2 at a concrete input: miss for key "u", cache
write failing, fetcher returning "A" then "C". -/
theorem C2_miss_write_failure_refetches_witness :
    (let r := wrapper 10 ⟨false, true, false⟩ (twoFetch "A" "C") emptyStore 0 "u"
     r.logged = 1 ∧ r.fetchCalls = 2 ∧
     r.store.count ("count:" ++ "u") = emptyStore.count ("count:" ++ "u") ∧
     (∀ w, twoFetch "A" "C" 1 = .ok w → r.outcome = .ok w) ∧
     (∀ e, twoFetch "A" "C" 1 = .error e → r.outcome = .error (.fetchRaw e))) :=
  C2_miss_write_failure_refetches 10 "u" "A" (by decide) true false (Or.inl rfl)
    (twoFetch "A" "C") emptyStore 0 (by decide) rfl

/-- C3 as frozen is refuted: with the counter increment failing after a
successful miss-path fetch for key "z", the fetcher is invoked twice within
a single invocation. -/
theorem C3_counterexample :
    (let r := wrapper 10 ⟨false, false, true⟩ (twoFetch "A" "B") emptyStore 0 "z"
     r.fetchCalls = 2 ∧ ¬ r.fetchCalls ≤ 1) := by
  dsimp only
  decide

/-- C3 amended: each store operation (Get, SetWithExpiry, Increment) is
attempted at most once per invocation, but the fetcher may be invoked up to
TWICE: a second call happens only on the fallback path after a logged store
failure (with no store failure logged, the fetcher runs at most once). -/
theorem C3_operation_attempt_bounds (ce : Nat) (beh : StoreBehavior)
    (fetch : Nat → Except FetchErr String) (st : Store) (now : Nat)
    (url : String) :
    let r := wrapper ce beh fetch st now url
    r.getCalls ≤ 1 ∧ r.setexCalls ≤ 1 ∧ r.incrCalls ≤ 1 ∧ r.fetchCalls ≤ 2 ∧
    (r.logged = 0 → r.fetchCalls ≤ 1) := by
  dsimp only
  unfold wrapper
  repeat' split
  all_goals simp

/-- A successful invocation against a healthy store sets the access counter
of its key to its previous value (0 when absent) plus one: both the hit path
and the successful miss path reach exactly one `incr`. -/
theorem wrapper_healthy_success_incr (ce : Nat) (url : String) (hurl : url ≠ "")
    (fetch : Nat → Except FetchErr String) (st : Store) (now : Nat) (v : String)
    (h : (wrapper ce healthy fetch st now url).outcome = .ok v) :
    (wrapper ce healthy fetch st now url).store.count ("count:" ++ url)
      = some ((st.count ("count:" ++ url)).getD 0 + 1) := by
  by_cases htr : truthy (storeGet st now ("cached:" ++ url)) = true
  · simp [wrapper, hurl, htr, healthy, storeIncr]
  · rw [Bool.not_eq_true] at htr
    cases hf : fetch 0 with
    | error e => simp [wrapper, hurl, htr, healthy, hf] at h
    | ok html => simp [wrapper, hurl, htr, healthy, hf, storeIncr, storeSetex]

/-- Over a sequence of invocations against a healthy store in which every
outcome is a success, the access counter of the key grows by exactly the
number of invocations. -/
theorem runList_count (ce : Nat) (url : String) (hurl : url ≠ "")
    (steps : List (Nat × (Nat → Except FetchErr String))) (st : Store)
    (hok : ∀ o ∈ (runList ce url steps st).2, ∃ v, o = Except.ok v) :
    ((runList ce url steps st).1.count ("count:" ++ url)).getD 0
      = (st.count ("count:" ++ url)).getD 0 + steps.length := by
  induction steps generalizing st with
  | nil => simp [runList]
  | cons p rest ih =>
    obtain ⟨now, f⟩ := p
    simp only [runList] at hok ⊢
    obtain ⟨v, hv⟩ := hok _ (List.mem_cons_self _ _)
    have hrest : ∀ o ∈ (runList ce url rest
        (wrapper ce healthy f st now url).store).2, ∃ w, o = Except.ok w :=
      fun o ho => hok o (List.mem_cons_of_mem _ ho)
    rw [ih _ hrest, wrapper_healthy_success_incr ce url hurl f st now v hv]
    simp [Nat.add_assoc, Nat.add_comm 1]

/-- C6: starting from a store where the key has never been counted, after n
invocations of TrackedFetch against a healthy store in which every outcome
is a success (any mix of cache hits and misses), GetAccessCount returns n. -/
theorem C6_count_equals_invocations (ce : Nat) (url : String) (hurl : url ≠ "")
    (steps : List (Nat × (Nat → Except FetchErr String))) (st : Store)
    (h0 : st.count ("count:" ++ url) = none)
    (hok : ∀ o ∈ (runList ce url steps st).2, ∃ v, o = Except.ok v) :
    get_url_count false (runList ce url steps st).1 url = some steps.length := by
  have hc := runList_count ce url hurl steps st hok
  simp [get_url_count, hc, h0]

/-- Witness for C6 at a concrete input: two invocations for key "u" (a miss
then a hit) from the empty store give a count of 2. -/
theorem C6_count_equals_invocations_witness :
    get_url_count false
      (runList 10 "u" [(0, okFetch "A"), (1, okFetch "A")] emptyStore).1 "u"
      = some 2 :=
  C6_count_equals_invocations 10 "u" (by decide)
    [(0, okFetch "A"), (1, okFetch "A")] emptyStore rfl
    (by
      intro o ho
      have h2 : (runList 10 "u" [(0, okFetch "A"), (1, okFetch "A")]
          emptyStore).2 = [Except.ok "A", Except.ok "A"] := rfl
      rw [h2] at ho
      simp only [List.mem_cons, List.not_mem_nil, or_false] at ho
      rcases ho with h | h <;> exact ⟨"A", h⟩)

end WebCache
